import Mathlib

/-!
Verification development for the meter_reader_ble firmware core: the
protocol exchange engine (`meter_reader.h`) and the record decoder
(`data_parser.h`).

Modelling conventions:
* a byte is a `Nat` value below 256; an Arduino `String` is a `List Nat`
  of byte values;
* C++ `float` arithmetic on decoded readings is modelled over `ℚ`
  (the decoders only divide assembled integers by powers of ten);
* `uint32_t` arithmetic is `Nat` arithmetic reduced modulo `2 ^ 32`
  at each step;
* the serial channel is modelled as an oracle supplying, for each read
  step, the byte sequence that would arrive within that step's timeout,
  and a flag for each command write telling whether the full command
  was written.
-/

namespace MeterBLE

/-! ### Arduino String primitives used by the decoder -/

/-- Decimal rendering of a nonnegative integer, as the list of its ASCII
digit codes; `natToDecBytes` below models the Arduino `String(number)`
constructor.  The fuel argument is always sufficient (`n + 1` steps). -/
def natToDecAux : Nat → Nat → List Nat
  | 0, _ => []
  | fuel + 1, n =>
    if n < 10 then [48 + n]
    else natToDecAux fuel (n / 10) ++ [48 + n % 10]

/-- Arduino `String(n)` for an unsigned integer: decimal digit characters. -/
def natToDecBytes (n : Nat) : List Nat :=
  natToDecAux (n + 1) n

/-- C `isspace`: space and the five control characters 0x09..0x0D. -/
def isSpaceByte (b : Nat) : Bool :=
  b == 32 || (9 ≤ b && b ≤ 13)

/-- Arduino string trimming: strip leading and trailing whitespace. -/
def trimB (s : List Nat) : List Nat :=
  ((s.dropWhile isSpaceByte).reverse.dropWhile isSpaceByte).reverse

/-- Arduino `String::substring(left, right)`: the characters in
positions `[left, right)`, clamped to the string length (and with the
bounds swapped when given out of order, as the Arduino core does). -/
def substringB (s : List Nat) (left right : Nat) : List Nat :=
  let l := min left right
  let r := min (max left right) s.length
  (s.take r).drop l

/-- Arduino `String::indexOf(ch, fromIndex)`: position of the first
occurrence of `c` at or after `fromIdx`, or `-1` when absent. -/
def indexOfFrom (s : List Nat) (c : Nat) (fromIdx : Nat) : Int :=
  match ((s.drop fromIdx).findIdx? (fun b => b == c)) with
  | some i => Int.ofNat (fromIdx + i)
  | none => -1

/-- Arduino `String::replace(String(ch), emptyString)`: remove every
occurrence of the byte `c`. -/
def removeChar (s : List Nat) (c : Nat) : List Nat :=
  s.filter (fun b => b ≠ c)

/-- Helper for `toFloatB`: consume a maximal run of ASCII digits,
returning the accumulated value, the number of digits consumed, and the
rest of the input. -/
def parseDigitsAux : List Nat → Nat → Nat → Nat × Nat × List Nat
  | [], acc, cnt => (acc, cnt, [])
  | b :: rest, acc, cnt =>
    if 48 ≤ b ∧ b ≤ 57 then parseDigitsAux rest (acc * 10 + (b - 48)) (cnt + 1)
    else (acc, cnt, b :: rest)

/-- Arduino `String::toFloat` (libc `atof` on the buffer): skip leading
whitespace, read an optional sign, an integer part and an optional
fractional part, ignoring any trailing garbage.  The exponent form of
`atof` is not exercised by the meter payloads and is not modelled. -/
def toFloatB (s : List Nat) : ℚ :=
  let s1 := s.dropWhile isSpaceByte
  let signAndRest : ℚ × List Nat :=
    match s1 with
    | 45 :: r => (-1, r)
    | 43 :: r => (1, r)
    | r => (1, r)
  let (ip, _, s3) := parseDigitsAux signAndRest.2 0 0
  let frac : ℚ :=
    match s3 with
    | 46 :: r =>
      let (fp, fcnt, _) := parseDigitsAux r 0 0
      (fp : ℚ) / 10 ^ fcnt
    | _ => 0
  signAndRest.1 * ((ip : ℚ) + frac)

/-- The `length` consecutive bytes of `raw` starting at `off`; models a
`&data[off]` pointer passed together with a length. -/
def subBytes (raw : List Nat) (off len : Nat) : List Nat :=
  (raw.drop off).take len

/-! ### Data model (`config.h`, `data_parser.h`) -/

/-- The `MeterType` enumeration of `config.h`. -/
inductive MeterType where
  | METER_TYPE_UNKNOWN
  | IRDA_1PH_RAW
  | IRDA_1PH_PARSED
  | IRDA_3PH_RAW
  | IRDA_3PH_PARSED
  | IRDA_3PH_14HP
  | IRDA_3PH_13HP
  | IRDA_3PH_SOLAR_RAW
  | IRDA_3PH_SOLAR_PARSED
  | IR_1PH_RAW
  | IR_1PH_PARSED
  | IR_3PH_RAW
  | IR_3PH_PARSED
deriving DecidableEq

/-- Model of `struct MeterInfo` of `data_parser.h`. -/
structure MeterInfo where
  serialNumber : List Nat
  manufacturerId : List Nat
  timestamp : List Nat
  date : List Nat
  make : List Nat
  phase : Nat
  multiplicationFactor : ℚ
  mdResetCount : Nat
deriving DecidableEq

/-- The `MeterInfo()` constructor: strings empty, numerics zero. -/
def MeterInfo.default : MeterInfo :=
  ⟨[], [], [], [], [], 0, 0, 0⟩

/-- Model of `struct EnergyData` of `data_parser.h`. -/
structure EnergyData where
  kwh : ℚ
  kvah : ℚ
  kvarh : ℚ
  kvarhLag : ℚ
  kvarhLead : ℚ
  kva : ℚ
  powerFactor : ℚ
  maxDemand : ℚ
  mdTime : List Nat
  mdDate : List Nat
deriving DecidableEq

/-- The `EnergyData()` constructor. -/
def EnergyData.default : EnergyData :=
  ⟨0, 0, 0, 0, 0, 0, 0, 0, [], []⟩

/-- Model of `struct ElectricalData` of `data_parser.h`. -/
structure ElectricalData where
  voltageR : ℚ
  voltageY : ℚ
  voltageB : ℚ
  currentR : ℚ
  currentY : ℚ
  currentB : ℚ
  frequency : ℚ
  tamperCount : Nat
  tamperStatus : Nat
deriving DecidableEq

/-- The `ElectricalData()` constructor. -/
def ElectricalData.default : ElectricalData :=
  ⟨0, 0, 0, 0, 0, 0, 0, 0, 0⟩

/-- Model of `struct ParsedMeterData` of `data_parser.h`. -/
structure ParsedMeterData where
  info : MeterInfo
  energy : EnergyData
  electrical : ElectricalData
  isValid : Bool
deriving DecidableEq

/-- The `ParsedMeterData()` constructor: all fields default, `isValid=false`. -/
def ParsedMeterData.default : ParsedMeterData :=
  ⟨MeterInfo.default, EnergyData.default, ElectricalData.default, false⟩

/-- Model of `struct MeterData` of `config.h`, restricted to the fields the
decoder consumes (`rawData` and `isValid`). -/
structure MeterDataM where
  rawData : List Nat
  isValid : Bool
deriving DecidableEq

/-! ### DataParser utility functions (`data_parser.h`) -/

/-- Model of `DataParser::hexToDecimal(const uint8_t*, int)`: big-endian
assembly `result = (result << 8) | data[i]` over a `uint32_t`
accumulator. -/
def hexToDecimal (data : List Nat) : Nat :=
  data.foldl (fun result b => (((result <<< 8) ||| b) % 4294967296)) 0

/-- Model of `DataParser::bcdToDecimal`: split a byte into its high and low
nibbles. -/
def bcdToDecimal (bcd : Nat) : Nat × Nat :=
  ((bcd >>> 4) &&& 15, bcd &&& 15)

/-- The per-byte rendering both BCD formatters apply: each nibble is
passed to the Arduino `String(number)` constructor and the two pieces
are concatenated. -/
def bcdRenderByte (b : Nat) : List Nat :=
  natToDecBytes (bcdToDecimal b).1 ++ natToDecBytes (bcdToDecimal b).2

/-- Model of `DataParser::formatBCDTime`: render `hour:minute`, appending
`:second` only when the seconds byte is nonzero. -/
def formatBCDTime (hour minute second : Nat) : List Nat :=
  let result := natToDecBytes (bcdToDecimal hour).1 ++ natToDecBytes (bcdToDecimal hour).2
    ++ [58] ++ natToDecBytes (bcdToDecimal minute).1 ++ natToDecBytes (bcdToDecimal minute).2
  if second ≠ 0 then
    result ++ [58] ++ natToDecBytes (bcdToDecimal second).1 ++ natToDecBytes (bcdToDecimal second).2
  else
    result

/-- Model of `DataParser::formatBCDDate`: render `day:month:year`. -/
def formatBCDDate (day month year : Nat) : List Nat :=
  natToDecBytes (bcdToDecimal day).1 ++ natToDecBytes (bcdToDecimal day).2
    ++ [58] ++ natToDecBytes (bcdToDecimal month).1 ++ natToDecBytes (bcdToDecimal month).2
    ++ [58] ++ natToDecBytes (bcdToDecimal year).1 ++ natToDecBytes (bcdToDecimal year).2

/-- Model of `DataParser::convertToFloat`: divide by `10^decimals`, the divisor
being built by the source's multiply-by-ten loop. -/
def convertToFloat (value : Nat) (decimals : Nat) : ℚ :=
  let divisor : ℚ := (List.range decimals).foldl (fun d _ => d * 10) 1
  (value : ℚ) / divisor

/-- Model of `DataParser::validatePacketLength`: the decoder's length gate. -/
def validatePacketLength (data : List Nat) (minLength : Nat) : Bool :=
  if data.length < minLength then false else true

/-- Model of `DataParser::validateBCDValue`: both nibbles must be at most 9.
Declared by the source but never called by any parser. -/
def validateBCDValue (bcd : Nat) : Bool :=
  ((bcd >>> 4) &&& 15) ≤ 9 && (bcd &&& 15) ≤ 9

/-! ### Individual parsers (`data_parser.h`)

Each parser takes the capture bytes and returns the C++ boolean result
together with the `ParsedMeterData` output argument, which the caller
(`parseAndPrint`) always passes in freshly default-constructed. -/

/-- Model of `DataParser::parse1PhaseIRDA`: 1-phase text-protocol decode
(minimum length 120). -/
def parse1PhaseIRDA (rawData : List Nat) : Bool × ParsedMeterData :=
  if validatePacketLength rawData 120 = false then (false, ParsedMeterData.default) else
  let parsed := ParsedMeterData.default
  let parsed := if 24 < rawData.length then
      { parsed with info := { parsed.info with
          serialNumber := trimB (removeChar (substringB rawData 16 24) 6) } }
    else parsed
  let secondPacketStart := indexOfFrom rawData 58 30
  let parsed := if 0 < secondPacketStart ∧ secondPacketStart + 32 < (rawData.length : Int) then
      { parsed with info := { parsed.info with
          manufacturerId := trimB (removeChar
            (substringB rawData (secondPacketStart + 16).toNat (secondPacketStart + 32).toNat) 6) } }
    else parsed
  let thirdPacketStart := indexOfFrom rawData 58 (secondPacketStart + 30).toNat
  let parsed := if 0 < thirdPacketStart ∧ thirdPacketStart + 25 < (rawData.length : Int) then
      { parsed with energy := { parsed.energy with
          kwh := toFloatB (trimB (removeChar
            (substringB rawData (thirdPacketStart + 16).toNat (thirdPacketStart + 25).toNat) 6)) } }
    else parsed
  -- The fourth-packet RMD substring is extracted by the source but not
  -- stored in any field, so it has no observable effect here.
  let parsed := { parsed with info := { parsed.info with phase := 1 }, isValid := true }
  (true, parsed)

/-- Model of `DataParser::parse3PhaseIRDA`: 3-phase optical decode
(minimum length 79). -/
def parse3PhaseIRDA (rawData : List Nat) : Bool × ParsedMeterData :=
  if validatePacketLength rawData 79 = false then (false, ParsedMeterData.default) else
  let d := fun i => rawData.getD i 0
  let parsed := ParsedMeterData.default
  let parsed := if 21 < rawData.length then
      { parsed with info := { parsed.info with
          manufacturerId := natToDecBytes (hexToDecimal (subBytes rawData 18 3)) } }
    else parsed
  let parsed := if 26 < rawData.length then
      { parsed with info := { parsed.info with
          timestamp := formatBCDTime (d 21) (d 22) (d 23) } }
    else parsed
  let parsed := if 29 < rawData.length then
      { parsed with info := { parsed.info with
          date := formatBCDDate (d 24) (d 25) (d 26) } }
    else parsed
  let parsed := if 33 < rawData.length then
      { parsed with electrical := { parsed.electrical with
          voltageR := convertToFloat (hexToDecimal (subBytes rawData 27 2)) 1,
          voltageY := convertToFloat (hexToDecimal (subBytes rawData 29 2)) 1,
          voltageB := convertToFloat (hexToDecimal (subBytes rawData 31 2)) 1 } }
    else parsed
  let parsed := if 39 < rawData.length then
      { parsed with electrical := { parsed.electrical with
          currentR := convertToFloat (hexToDecimal (subBytes rawData 33 2)) 2,
          currentY := convertToFloat (hexToDecimal (subBytes rawData 35 2)) 2,
          currentB := convertToFloat (hexToDecimal (subBytes rawData 37 2)) 2 } }
    else parsed
  let parsed := if 47 < rawData.length then
      { parsed with energy := { parsed.energy with
          kwh := convertToFloat (hexToDecimal (subBytes rawData 43 4)) 2 } }
    else parsed
  let parsed := if 59 < rawData.length then
      { parsed with energy := { parsed.energy with
          kvah := convertToFloat (hexToDecimal (subBytes rawData 55 4)) 2 } }
    else parsed
  let parsed := if 61 < rawData.length then
      { parsed with energy := { parsed.energy with
          maxDemand := convertToFloat (hexToDecimal (subBytes rawData 59 2)) 2 } }
    else parsed
  let parsed := if 69 < rawData.length then
      { parsed with info := { parsed.info with make := [d 66, d 67, d 68] } }
    else parsed
  let parsed := if 70 < rawData.length then
      { parsed with info := { parsed.info with phase := d 69 } }
    else parsed
  let parsed := if 72 < rawData.length then
      { parsed with info := { parsed.info with
          multiplicationFactor := convertToFloat (hexToDecimal (subBytes rawData 70 2)) 2 } }
    else parsed
  ((true, { parsed with isValid := true }))

/-- Helper for `padZeros`: one fuel step per loop iteration; the loop
runs at most `digitCount` times since each pass grows the string. -/
def padZerosAux : Nat → List Nat → Nat → List Nat
  | 0, s, _ => s
  | fuel + 1, s, digitCount =>
    if s.length < digitCount then padZerosAux fuel (48 :: s) digitCount else s

/-- Left-pad a decimal rendering with ASCII zeros up to `digitCount`
characters, as the HP parser's while loop does. -/
def padZeros (s : List Nat) (digitCount : Nat) : List Nat :=
  padZerosAux digitCount s digitCount

/-- Model of `DataParser::parse3PhaseHPIRDA`: HP-format 3-phase decode
(minimum length 71); `digitCount` controls manufacturer id padding. -/
def parse3PhaseHPIRDA (rawData : List Nat) (digitCount : Nat) : Bool × ParsedMeterData :=
  if validatePacketLength rawData 71 = false then (false, ParsedMeterData.default) else
  let d := fun i => rawData.getD i 0
  let parsed := ParsedMeterData.default
  let parsed := if 27 < rawData.length then
      { parsed with info := { parsed.info with
          manufacturerId :=
            padZeros (natToDecBytes (hexToDecimal (subBytes rawData 23 4))) digitCount } }
    else parsed
  let parsed := if 34 < rawData.length then
      { parsed with info := { parsed.info with
          timestamp := formatBCDTime (d 31) (d 32) (d 33) } }
    else parsed
  let parsed := if 37 < rawData.length then
      { parsed with info := { parsed.info with
          date := formatBCDDate (d 34) (d 35) (d 36) } }
    else parsed
  let parsed := if 43 < rawData.length then
      { parsed with electrical := { parsed.electrical with
          voltageR := convertToFloat (hexToDecimal (subBytes rawData 38 2)) 1,
          voltageY := convertToFloat (hexToDecimal (subBytes rawData 40 2)) 1,
          voltageB := convertToFloat (hexToDecimal (subBytes rawData 42 2)) 1 } }
    else parsed
  let parsed := if 49 < rawData.length then
      { parsed with electrical := { parsed.electrical with
          currentR := convertToFloat (hexToDecimal (subBytes rawData 44 2)) 2,
          currentY := convertToFloat (hexToDecimal (subBytes rawData 46 2)) 2,
          currentB := convertToFloat (hexToDecimal (subBytes rawData 48 2)) 2 } }
    else parsed
  let parsed := if 57 < rawData.length then
      { parsed with energy := { parsed.energy with
          kwh := convertToFloat (hexToDecimal (subBytes rawData 49 4)) 2 } }
    else parsed
  let parsed := if 61 < rawData.length then
      { parsed with energy := { parsed.energy with
          kvah := convertToFloat (hexToDecimal (subBytes rawData 53 4)) 2 } }
    else parsed
  let parsed := { parsed with info := { parsed.info with phase := 3 }, isValid := true }
  (true, parsed)

/-- Model of `DataParser::parse3PhaseIR`: 3-phase infrared decode
(minimum length 43). -/
def parse3PhaseIR (rawData : List Nat) : Bool × ParsedMeterData :=
  if validatePacketLength rawData 43 = false then (false, ParsedMeterData.default) else
  let d := fun i => rawData.getD i 0
  let parsed := ParsedMeterData.default
  let parsed := if 10 < rawData.length then
      { parsed with info := { parsed.info with
          manufacturerId := natToDecBytes (hexToDecimal (subBytes rawData 6 4)) } }
    else parsed
  let parsed := if 15 < rawData.length then
      { parsed with info := { parsed.info with
          date := formatBCDDate (d 10) (d 11) (d 12),
          timestamp := formatBCDTime (d 13) (d 14) 0 } }
    else parsed
  let parsed := if 19 < rawData.length then
      { parsed with energy := { parsed.energy with
          kwh := convertToFloat (hexToDecimal (subBytes rawData 15 4)) 3 } }
    else parsed
  let parsed := if 23 < rawData.length then
      { parsed with energy := { parsed.energy with
          kvarhLag := convertToFloat (hexToDecimal (subBytes rawData 19 4)) 3 } }
    else parsed
  let parsed := if 27 < rawData.length then
      { parsed with energy := { parsed.energy with
          kvarhLead := convertToFloat (hexToDecimal (subBytes rawData 23 4)) 3 } }
    else parsed
  let parsed := if 31 < rawData.length then
      { parsed with energy := { parsed.energy with
          kvah := convertToFloat (hexToDecimal (subBytes rawData 27 4)) 3 } }
    else parsed
  let parsed := if 32 < rawData.length then
      { parsed with energy := { parsed.energy with
          powerFactor := convertToFloat (d 31) 2 } }
    else parsed
  let parsed := if 35 < rawData.length then
      { parsed with energy := { parsed.energy with
          maxDemand := convertToFloat (hexToDecimal (subBytes rawData 32 2)) 3 } }
    else parsed
  let parsed := if 43 < rawData.length then
      { parsed with electrical := { parsed.electrical with
          tamperCount := hexToDecimal (subBytes rawData 39 2),
          tamperStatus := hexToDecimal (subBytes rawData 41 2) } }
    else parsed
  let parsed := { parsed with info := { parsed.info with phase := 3 }, isValid := true }
  (true, parsed)

/-- Model of `DataParser::parse1PhaseIR`: delegates to the IRDA 1-phase parser. -/
def parse1PhaseIR (rawData : List Nat) : Bool × ParsedMeterData :=
  parse1PhaseIRDA rawData

/-! ### Main parsing interface (`DataParser::parseAndPrint`) -/

/-- The distinguishable error outcomes of `parseAndPrint`, keyed by the
error message printed on each failure path. -/
inductive ParseErrorKind where
  | invalidInput
  | unsupportedType
  | parseFailed
deriving DecidableEq

/-- The tail of `parseAndPrint` after a dispatched parser ran: success
requires both the returned boolean and the record's `isValid` flag. -/
def finishParse (r : Bool × ParsedMeterData) : Bool × Option ParseErrorKind :=
  if r.1 && r.2.isValid then (true, none) else (false, some ParseErrorKind.parseFailed)

/-- Model of `DataParser::parseAndPrint`: input gate, then switch-dispatch on the
meter type.  The communication collaborator is wiring and is modelled as
always present (its null-check short-circuits the same `invalidInput`
path). -/
def parseAndPrint (data : MeterDataM) (t : MeterType) : Bool × Option ParseErrorKind :=
  if data.isValid = false ∨ data.rawData.length = 0 then
    (false, some ParseErrorKind.invalidInput)
  else
    match t with
    | MeterType.IRDA_1PH_PARSED => finishParse (parse1PhaseIRDA data.rawData)
    | MeterType.IRDA_3PH_PARSED => finishParse (parse3PhaseIRDA data.rawData)
    | MeterType.IRDA_3PH_14HP => finishParse (parse3PhaseHPIRDA data.rawData 8)
    | MeterType.IRDA_3PH_13HP => finishParse (parse3PhaseHPIRDA data.rawData 7)
    | MeterType.IR_1PH_PARSED => finishParse (parse1PhaseIR data.rawData)
    | MeterType.IR_3PH_PARSED => finishParse (parse3PhaseIR data.rawData)
    | _ => (false, some ParseErrorKind.unsupportedType)

/-! ### Protocol message catalog (`ProtocolMessages`, `meter_reader.h`) -/

/-- Handshake command A of the 3-phase exchange. -/
def IRDA_3PH_MSG1 : List Nat :=
  [0x95, 0x95, 0xFF, 0xFF, 0xFF, 0x0B, 0x96, 0x31, 0x11, 0x05, 0x00]

/-- Command template B of the 3-phase exchange; bytes 2..4 are patched from the
handshake response before transmission. -/
def IRDA_3PH_MSG2 : List Nat :=
  [0x95, 0x95, 0xFF, 0xFF, 0xFF, 0x0B, 0x00, 0x31, 0x11, 0x05, 0x00]

/-- Message template with the solar-export flag preset. -/
def IRDA_3PH_MSG5 : List Nat :=
  [0x95, 0x95, 0xFF, 0xFF, 0xFF, 0x0B, 0x01, 0x31, 0x11, 0x05, 0x00]

/-- HP handshake command. -/
def IRDA_3PH_MSG6 : List Nat :=
  [0x95, 0x95, 0xFF, 0xFF, 0xFF, 0xFF, 0xFF, 0xFF, 0xFF, 0xFF, 0x10, 0x96, 0x31, 0x11, 0x05, 0x00]

/-- HP second-command template. -/
def IRDA_3PH_MSG7 : List Nat :=
  [0x95, 0x95, 0xFF, 0xFF, 0xFF, 0xFF, 0xFF, 0xFF, 0xFF, 0xFF, 0x10, 0x00, 0x31, 0x11, 0x05, 0x00]

/-- Infrared 3-phase fixed command. -/
def IR_3PH_MSG : List Nat :=
  [0xB9, 0x9E, 0x8E, 0x7E, 0x1E]

/-- The five 1-phase ASCII catalog commands, as byte lists. -/
def IRDA_1PH_CMD_STRINGS : List (List Nat) :=
  [[58, 48, 48, 52, 49, 51, 66, 67, 52],
   [58, 48, 48, 52, 50, 51, 65, 67, 53],
   [58, 48, 48, 52, 51, 51, 57, 67, 54],
   [58, 48, 48, 52, 53, 51, 55, 67, 56],
   [58, 48, 48, 52, 54, 51, 54, 67, 57]]

/-! ### Protocol engine (`MeterReader`, `meter_reader.h`)

The serial channel is shallow-embedded as an oracle: for each read step
it supplies the byte sequence that would arrive within that step's
2000ms timeout, and for each binary command write a flag telling whether
`HardwareSerial::write` reported the full length (the text-command write
of the 1-phase exchange always reports success in the source). -/

/-- Model of `MeterReader::readIRDAPacket`: collect bytes until `expectedBytes`
have arrived or the timeout expires; report success only when the full
`expectedBytes` count was reached.  `arriving` is the sequence the
channel would deliver within the timeout. -/
def readIRDAPacketM (arriving : List Nat) (expectedBytes : Nat) : List Nat × Bool :=
  let data := arriving.take expectedBytes
  (data, decide (expectedBytes ≤ data.length))

/-- The second 3-phase command as derived from the handshake response
`packet`: a copy of template B whose positions 2..4 are overwritten with
the response bytes at offsets 22..24 when the response holds at least
25 bytes. -/
def deriveMsg2 (packet : List Nat) : List Nat :=
  if 25 ≤ packet.length then
    ((IRDA_3PH_MSG2.set 2 (packet.getD 22 0)).set 3 (packet.getD 23 0)).set 4 (packet.getD 24 0)
  else IRDA_3PH_MSG2

/-- Channel oracle for one 3-phase optical exchange. -/
structure Oracle3PH where
  msg1Written : Bool
  handshakeBytes : List Nat
  msg2Written : Bool
  finalBytes : List Nat
deriving DecidableEq

/-- Result of a 3-phase optical exchange: the second command as
transmitted (`none` when the exchange never reached that step), the
capture bytes, and the capture's validity flag. -/
structure Capture3PH where
  sentMsg2 : Option (List Nat)
  rawData : List Nat
  isValid : Bool
deriving DecidableEq

/-- Model of `MeterReader::readMeterIRDA3PH`: handshake with command A, derive
command B from the response, send it after the 1500ms settle delay, and
accept the final packet only when the full 79 bytes arrived. -/
def readMeterIRDA3PH (o : Oracle3PH) : Capture3PH :=
  if o.msg1Written then
    let r1 := readIRDAPacketM o.handshakeBytes 30
    if r1.2 then
      let msg2 := deriveMsg2 r1.1
      if o.msg2Written then
        let r2 := readIRDAPacketM o.finalBytes 79
        if r2.2 then ⟨some msg2, r2.1, true⟩
        else ⟨some msg2, [], false⟩
      else ⟨some msg2, [], false⟩
    else ⟨none, [], false⟩
  else ⟨none, [], false⟩

/-- Model of `MeterReader::readMeterIRDA1PH`: send each of the five catalog
commands in turn and append a response packet to the accumulating
capture only when its read reported success; the capture is valid iff
any bytes were accumulated.  `arrivals i` is what the channel would
deliver within the timeout of step `i`. -/
def readMeterIRDA1PH (arrivals : Fin 5 → List Nat) : List Nat × Bool :=
  let step := fun (acc : List Nat) (i : Fin 5) =>
    let r := readIRDAPacketM (arrivals i) 30
    if r.2 then acc ++ r.1 else acc
  let responseData := (List.finRange 5).foldl step []
  if 0 < responseData.length then (responseData, true) else (responseData, false)

/-- The label the solar exchange places before the appended export
section of a capture. -/
def EXPORT_LABEL : List Nat :=
  [10, 42, 42, 32, 69, 88, 80, 79, 82, 84, 32, 68, 65, 84, 65, 32, 42, 42, 10]

/-- The solar export command: template B with byte 6 set to the export
flag. -/
def SOLAR_MSG : List Nat :=
  IRDA_3PH_MSG2.set 6 0x01

/-- Channel oracle for the solar exchange: the import-direction 3-phase
exchange followed by one export command/read pair. -/
structure OracleSolar where
  imp : Oracle3PH
  exportWritten : Bool
  exportBytes : List Nat
deriving DecidableEq

/-- Model of `MeterReader::readMeterIRDA3PHSolar`: run the 3-phase import
exchange; on its failure return immediately, otherwise send the export
command and, only when the export read reports success, append the
labeled export section to the capture.  The validity flag is whatever
the import exchange produced. -/
def readMeterIRDA3PHSolar (o : OracleSolar) : Capture3PH :=
  let r := readMeterIRDA3PH o.imp
  if r.isValid = false then r
  else if o.exportWritten then
    let re := readIRDAPacketM o.exportBytes 79
    if re.2 then { r with rawData := r.rawData ++ EXPORT_LABEL ++ re.1 }
    else r
  else r

/-! ### Specification-side definition for the big-endian claim -/

/-- The spec's formula for big-endian assembly, written from its words:
the sum of `data[i] * 256 ^ (N - 1 - i)` over the byte positions.  Used
only for comparison against `hexToDecimal`. -/
def bigEndianSpec (data : List Nat) : Nat :=
  ∑ i ∈ Finset.range data.length, data.getD i 0 * 256 ^ (data.length - 1 - i)

/-! ### Helper lemmas -/

/-- Shifting left by a byte and or-ing in a value below 256 is plain
positional arithmetic. -/
theorem shiftLeft_lor_eq_add (r b : Nat) (hb : b < 256) :
    (r <<< 8) ||| b = r * 256 + b := by
  have h := Nat.mul_add_lt_is_or (i := 8) (b := b) (by omega) r
  rw [Nat.shiftLeft_eq, Nat.mul_comm, ← h]

/-- One accumulator step of `hexToDecimal`, rewritten arithmetically. -/
theorem hexStep (r b : Nat) (hb : b < 256) :
    ((r <<< 8) ||| b) % 4294967296 = (r * 256 + b) % 4294967296 := by
  rw [shiftLeft_lor_eq_add r b hb]

/-- The length gate succeeds on sufficiently long captures. -/
theorem validate_true {raw : List Nat} {n : Nat} (h : n ≤ raw.length) :
    validatePacketLength raw n = true := by
  simp only [validatePacketLength]
  rw [if_neg (by omega)]

/-- The length gate fails on short captures. -/
theorem validate_false {raw : List Nat} {n : Nat} (h : raw.length < n) :
    validatePacketLength raw n = false := by
  simp only [validatePacketLength]
  rw [if_pos h]

/-! ### Claim C7: big-endian assembly and fixed-point scaling -/

/-- C7 counterexample.  The claim's worked example is arithmetically
wrong: the two assembled bytes `0x09 0x01` yield `0x0901 = 2305`, not
`2313`, and 1-decimal scaling of that value yields `230.5`, not `231.3`.
Moreover the claimed formula does not hold for every byte sequence: a
five-byte sequence overflows the `uint32_t` accumulator, e.g.
`01 00 00 00 00` assembles to `0` while the formula gives `2 ^ 32`. -/
theorem hexToDecimal_claim_cex :
    hexToDecimal [9, 1] = 2305 ∧ (2305 : Nat) ≠ 2313
    ∧ convertToFloat (hexToDecimal [9, 1]) 1 ≠ (231.3 : ℚ)
    ∧ hexToDecimal [1, 0, 0, 0, 0] = 0
    ∧ bigEndianSpec [1, 0, 0, 0, 0] = 4294967296 := by
  refine ⟨by decide, by decide, ?_, by decide, by decide⟩
  have h : hexToDecimal [9, 1] = 2305 := by decide
  rw [h]
  norm_num [convertToFloat, show List.range 1 = [0] from rfl, List.foldl]

/-- C7 (amended): for every byte sequence of at most 4 bytes — as at
every call site of `hexToDecimal` — big-endian assembly yields the
unsigned integer `sum of data[i] * 256 ^ (N - 1 - i)` (longer sequences
are reduced modulo `2 ^ 32`); the spec's worked example holds with the
consistent hex spelling: bytes `09 09` assemble to `0x0909 = 2313`
decimal, and fixed-point scaling with 1 decimal yields `231.3`. -/
theorem bigEndian_assembly_spec :
    (∀ data : List Nat, (∀ b ∈ data, b < 256) → data.length ≤ 4 →
      hexToDecimal data = bigEndianSpec data)
    ∧ hexToDecimal [9, 9] = 2313
    ∧ convertToFloat (hexToDecimal [9, 9]) 1 = (231.3 : ℚ) := by
  refine ⟨?_, by decide, ?_⟩
  · intro data hmem hlen
    match data with
    | [] => rfl
    | [a] =>
      have ha : a < 256 := hmem a (by simp)
      simp only [hexToDecimal, List.foldl]
      rw [hexStep _ _ ha]
      simp [bigEndianSpec, Finset.sum_range_succ]
      omega
    | [a, b] =>
      have ha : a < 256 := hmem a (by simp)
      have hb : b < 256 := hmem b (by simp)
      simp only [hexToDecimal, List.foldl]
      rw [hexStep _ _ ha, hexStep _ _ hb]
      simp [bigEndianSpec, Finset.sum_range_succ]
      omega
    | [a, b, c] =>
      have ha : a < 256 := hmem a (by simp)
      have hb : b < 256 := hmem b (by simp)
      have hc : c < 256 := hmem c (by simp)
      simp only [hexToDecimal, List.foldl]
      rw [hexStep _ _ ha, hexStep _ _ hb, hexStep _ _ hc]
      simp [bigEndianSpec, Finset.sum_range_succ]
      omega
    | [a, b, c, d] =>
      have ha : a < 256 := hmem a (by simp)
      have hb : b < 256 := hmem b (by simp)
      have hc : c < 256 := hmem c (by simp)
      have hd : d < 256 := hmem d (by simp)
      simp only [hexToDecimal, List.foldl]
      rw [hexStep _ _ ha, hexStep _ _ hb, hexStep _ _ hc, hexStep _ _ hd]
      simp [bigEndianSpec, Finset.sum_range_succ]
      omega
    | _ :: _ :: _ :: _ :: _ :: _ => simp at hlen
  · have h : hexToDecimal [9, 9] = 2313 := by decide
    rw [h]
    norm_num [convertToFloat, show List.range 1 = [0] from rfl, List.foldl]

/-- C7 witness: the amended assembly formula evaluated at the worked
example's two bytes. -/
theorem bigEndian_assembly_spec_witness :
    hexToDecimal [9, 9] = bigEndianSpec [9, 9] :=
  bigEndian_assembly_spec.1 [9, 9] (by decide) (by decide)

/-! ### Claim C8: literal BCD nibble rendering -/

/-- C8 counterexample.  Each nibble is rendered as the decimal numeral
of its value, which is one digit only for nibbles 0..9: byte `0xFF`
renders as the four characters `1515`, not as one decimal digit per
nibble. -/
theorem bcd_single_digit_cex :
    bcdRenderByte 255 = [49, 53, 49, 53] ∧ (bcdRenderByte 255).length ≠ 2 := by
  decide

set_option maxRecDepth 8192 in
/-- C8 (amended): BCD decode splits a byte into high and low nibble and
renders each nibble as the decimal numeral of its value without
rejecting nibbles greater than 9 (one digit for 0..9, two digits for
10..15): every byte whose nibbles are both at most 9 renders as exactly
the two corresponding digit characters; byte `0x14` decodes to the
digit string `14`, byte `0x00` to `00`, and an out-of-range byte such
as `0x2A` decodes literally to `210`. -/
theorem bcd_literal_decode :
    (∀ b, b < 256 → (bcdToDecimal b).1 ≤ 9 → (bcdToDecimal b).2 ≤ 9 →
      bcdRenderByte b = [48 + (bcdToDecimal b).1, 48 + (bcdToDecimal b).2])
    ∧ bcdRenderByte 0x14 = [49, 52]
    ∧ bcdRenderByte 0x00 = [48, 48]
    ∧ bcdRenderByte 0x2A = [50, 49, 48] := by
  refine ⟨?_, by decide, by decide, by decide⟩
  decide

/-- C8 witness: the two-digit rendering evaluated at the claim's example
byte `0x14`. -/
theorem bcd_literal_decode_witness :
    bcdRenderByte 0x14 = [48 + (bcdToDecimal 0x14).1, 48 + (bcdToDecimal 0x14).2] :=
  bcd_literal_decode.1 0x14 (by decide) (by decide) (by decide)

/-! ### Claim C10: the seconds component of formatted timestamps -/

set_option maxRecDepth 8192 in
/-- C10: a time field formats as hours and minutes only when the seconds
byte is zero; a seconds component is appended exactly when the seconds
byte is nonzero, and a nonzero seconds byte never renders as the digit
string `00`, so a decoded timestamp never displays a seconds value of
`00`. -/
theorem formatBCDTime_seconds_spec :
    (∀ h m : Nat, formatBCDTime h m 0 = bcdRenderByte h ++ [58] ++ bcdRenderByte m)
    ∧ (∀ h m s : Nat, s ≠ 0 →
        formatBCDTime h m s
          = bcdRenderByte h ++ [58] ++ bcdRenderByte m ++ [58] ++ bcdRenderByte s)
    ∧ (∀ s, s < 256 → s ≠ 0 → bcdRenderByte s ≠ [48, 48]) := by
  refine ⟨?_, ?_, ?_⟩
  · intro h m
    simp [formatBCDTime, bcdRenderByte, List.append_assoc]
  · intro h m s hs
    simp [formatBCDTime, bcdRenderByte, hs, List.append_assoc]
  · decide

/-- C10 witness: formatting with the nonzero seconds byte `0x35`
appends a seconds component and that component is not `00`. -/
theorem formatBCDTime_seconds_spec_witness :
    formatBCDTime 0x12 0x34 0x35
        = bcdRenderByte 0x12 ++ [58] ++ bcdRenderByte 0x34 ++ [58] ++ bcdRenderByte 0x35
    ∧ bcdRenderByte 0x35 ≠ [48, 48] :=
  ⟨formatBCDTime_seconds_spec.2.1 0x12 0x34 0x35 (by decide),
   formatBCDTime_seconds_spec.2.2 0x35 (by decide) (by decide)⟩

/-! ### Claim C2: the handshake splice of the 3-phase second command -/

/-- C2: whenever the handshake response holds at least 25 bytes, the
derived second command carries the response bytes at offsets 22..24 at
its positions 2..4 and agrees with command template B everywhere else;
moreover, any second command the exchange actually transmits is exactly
the one derived from the (at most 30 byte) handshake response. -/
theorem msg2_splice_spec :
    (∀ packet : List Nat, 25 ≤ packet.length →
      (deriveMsg2 packet).getD 2 0 = packet.getD 22 0
      ∧ (deriveMsg2 packet).getD 3 0 = packet.getD 23 0
      ∧ (deriveMsg2 packet).getD 4 0 = packet.getD 24 0
      ∧ ∀ i, i < 11 → i ≠ 2 → i ≠ 3 → i ≠ 4 →
          (deriveMsg2 packet).getD i 0 = IRDA_3PH_MSG2.getD i 0)
    ∧ (∀ o : Oracle3PH, ∀ m, (readMeterIRDA3PH o).sentMsg2 = some m →
        m = deriveMsg2 (o.handshakeBytes.take 30)) := by
  constructor
  · intro packet hp
    simp only [deriveMsg2, if_pos hp]
    refine ⟨rfl, rfl, rfl, ?_⟩
    intro i hi h2 h3 h4
    interval_cases i <;> first | rfl | omega
  · intro o m hm
    rcases o with ⟨w1, hb, w2, fb⟩
    simp only [readMeterIRDA3PH, readIRDAPacketM] at hm
    split_ifs at hm <;> simp_all

/-- C2 witness: splicing a synthetic handshake response whose offsets
22..24 hold `0x10 0x20 0x30`. -/
theorem msg2_splice_spec_witness :
    (deriveMsg2 (List.replicate 22 0 ++ [16, 32, 48])).getD 2 0
      = (List.replicate 22 0 ++ [16, 32, 48]).getD 22 0 :=
  (msg2_splice_spec.1 _ (by decide)).1

/-! ### Claim C3: the 1-phase accumulation rule -/

/-- C3 counterexample.  Bytes that arrive short of the 30 requested are
not appended: with three bytes arriving at every step, the accumulated
capture is empty and the capture is invalid, although bytes arrived
within every step's timeout. -/
theorem oneph_short_packets_dropped_cex :
    readMeterIRDA1PH (fun _ => [49, 50, 51]) = ([], false)
    ∧ ([49, 50, 51] : List Nat) ≠ [] := by
  decide

/-- C3 (amended): in the 1-phase exchange a step's packet is appended to
the accumulating capture only when the full 30 requested bytes arrived
within the step's timeout (short reads are discarded), and the
resulting capture is valid iff the accumulated length is greater than
zero, i.e. iff at least one of the five steps received 30 bytes. -/
theorem oneph_capture_spec (arrivals : Fin 5 → List Nat) :
    ((readMeterIRDA1PH arrivals).2 = true ↔
      30 ≤ (arrivals 0).length ∨ 30 ≤ (arrivals 1).length ∨ 30 ≤ (arrivals 2).length
        ∨ 30 ≤ (arrivals 3).length ∨ 30 ≤ (arrivals 4).length)
    ∧ (readMeterIRDA1PH arrivals).1 =
        (if 30 ≤ (arrivals 0).length then (arrivals 0).take 30 else [])
          ++ (if 30 ≤ (arrivals 1).length then (arrivals 1).take 30 else [])
          ++ (if 30 ≤ (arrivals 2).length then (arrivals 2).take 30 else [])
          ++ (if 30 ≤ (arrivals 3).length then (arrivals 3).take 30 else [])
          ++ (if 30 ≤ (arrivals 4).length then (arrivals 4).take 30 else []) := by
  have e : List.finRange 5 = [0, 1, 2, 3, 4] := by decide
  by_cases h0 : 30 ≤ (arrivals 0).length <;>
    by_cases h1 : 30 ≤ (arrivals 1).length <;>
      by_cases h2 : 30 ≤ (arrivals 2).length <;>
        by_cases h3 : 30 ≤ (arrivals 3).length <;>
          by_cases h4 : 30 ≤ (arrivals 4).length <;>
            simp [readMeterIRDA1PH, e, readIRDAPacketM, List.length_take, Nat.le_min,
              h0, h1, h2, h3, h4]

/-- C3 witness: with full packets at steps 1 and 3 only, the capture is
exactly their concatenation and is valid. -/
theorem oneph_capture_spec_witness :
    (readMeterIRDA1PH
        (fun i => if i = 0 ∨ i = 2 then List.replicate 31 7 else [])).2 = true :=
  (oneph_capture_spec _).1.mpr (Or.inl (by decide))

/-! ### Claim C4: validity of the 3-phase capture -/

/-- C4 counterexample.  The final read produced a byte, yet the capture
is invalid, because `readIRDAPacket` reports success only when the full
79 requested bytes arrived. -/
theorem threeph_final_short_cex :
    (readMeterIRDA3PH ⟨true, List.replicate 30 0, true, [65]⟩).isValid = false
    ∧ ([65] : List Nat) ≠ [] := by
  decide

/-- C4 (amended): the 3-phase capture is valid iff every step completed
in full — both command writes succeeded, the handshake read returned
its full 30 bytes, and the final read returned its full 79 bytes within
the timeout. -/
theorem threeph_valid_iff_full_reads (o : Oracle3PH) :
    (readMeterIRDA3PH o).isValid = true ↔
      o.msg1Written = true ∧ 30 ≤ o.handshakeBytes.length
        ∧ o.msg2Written = true ∧ 79 ≤ o.finalBytes.length := by
  rcases o with ⟨w1, hb, w2, fb⟩
  cases w1 <;> cases w2 <;>
    by_cases h1 : 30 ≤ hb.length <;>
      by_cases h2 : 79 ≤ fb.length <;>
        simp [readMeterIRDA3PH, readIRDAPacketM, List.length_take, Nat.le_min, h1, h2]

/-- C4 witness: a fully completed exchange yields a valid capture. -/
theorem threeph_valid_iff_full_reads_witness :
    (readMeterIRDA3PH ⟨true, List.replicate 30 0, true, List.replicate 79 0⟩).isValid = true :=
  (threeph_valid_iff_full_reads _).mpr ⟨rfl, by decide, rfl, by decide⟩

/-! ### Claim C5: a short handshake aborts the 3-phase exchange -/

/-- C5 counterexample.  With a 10-byte handshake response the engine
does not proceed best-effort: the second command is never transmitted
and the capture is invalid, even though the final read would have
delivered all 79 bytes. -/
theorem threeph_short_handshake_aborts_cex :
    (readMeterIRDA3PH ⟨true, List.replicate 10 0, true, List.replicate 79 0⟩).sentMsg2 = none
    ∧ (readMeterIRDA3PH ⟨true, List.replicate 10 0, true, List.replicate 79 0⟩).isValid = false
    ∧ (79 : Nat) ≤ (List.replicate 79 (0 : Nat)).length := by
  decide

/-- C5 (amended): whenever the handshake response is shorter than the
step's required 30 bytes, the engine aborts the exchange — the second
command is not sent and the capture is invalid regardless of what the
final read would have produced. -/
theorem threeph_short_handshake_no_msg2 (o : Oracle3PH)
    (h : o.handshakeBytes.length < 30) :
    (readMeterIRDA3PH o).sentMsg2 = none ∧ (readMeterIRDA3PH o).isValid = false := by
  rcases o with ⟨w1, hb, w2, fb⟩
  have hne : ¬ 30 ≤ hb.length := by simpa using h
  cases w1 <;>
    simp [readMeterIRDA3PH, readIRDAPacketM, List.length_take, Nat.le_min, hne]

/-- C5 witness: the abort behavior at an empty handshake response. -/
theorem threeph_short_handshake_no_msg2_witness :
    (readMeterIRDA3PH ⟨true, [], true, []⟩).sentMsg2 = none
    ∧ (readMeterIRDA3PH ⟨true, [], true, []⟩).isValid = false :=
  threeph_short_handshake_no_msg2 _ (by decide)

/-! ### Claim C6: solar validity is inherited from the import step -/

/-- C6: the solar capture's validity flag equals the one produced by the
import-direction 3-phase exchange; a successful export step only
appends the labeled export section to the raw data, and a failed or
short export step leaves the capture bytes untouched — in neither case
does the export outcome change the validity flag. -/
theorem solar_valid_inherited_from_import (o : OracleSolar) :
    ((readMeterIRDA3PHSolar o).isValid = (readMeterIRDA3PH o.imp).isValid)
    ∧ (o.exportWritten = true → 79 ≤ o.exportBytes.length →
        (readMeterIRDA3PH o.imp).isValid = true →
        (readMeterIRDA3PHSolar o).rawData
          = (readMeterIRDA3PH o.imp).rawData ++ EXPORT_LABEL ++ o.exportBytes.take 79)
    ∧ ((o.exportWritten = false ∨ o.exportBytes.length < 79) →
        (readMeterIRDA3PHSolar o).rawData = (readMeterIRDA3PH o.imp).rawData) := by
  rcases o with ⟨imp, ew, eb⟩
  by_cases hv : (readMeterIRDA3PH imp).isValid <;>
    cases ew <;>
      by_cases he : 79 ≤ eb.length <;>
        simp [readMeterIRDA3PHSolar, readIRDAPacketM, List.length_take, Nat.le_min,
          hv, he]

/-- C6 witness: a valid import exchange followed by a successful export
read appends exactly the labeled export section. -/
theorem solar_valid_inherited_from_import_witness :
    (readMeterIRDA3PHSolar
        ⟨⟨true, List.replicate 30 0, true, List.replicate 79 1⟩, true, List.replicate 79 2⟩).rawData
      = (readMeterIRDA3PH ⟨true, List.replicate 30 0, true, List.replicate 79 1⟩).rawData
          ++ EXPORT_LABEL ++ (List.replicate 79 2).take 79 :=
  (solar_valid_inherited_from_import _).2.1 rfl (by decide) (by decide)

/-! ### Claim C1: the decoder length gates -/

/-- C1: each decoder returns a valid record iff the capture meets the
variant minimum — 120 for 1-phase, 79 for 3-phase, 71 for HP (either
digit count), 43 for 3-phase infrared — regardless of byte content, and
on a shorter capture it fails leaving every field of the record at its
default value. -/
theorem decode_valid_iff_min_length (raw : List Nat) :
    ((parse1PhaseIRDA raw).2.isValid = true ↔ 120 ≤ raw.length)
    ∧ ((parse3PhaseIRDA raw).2.isValid = true ↔ 79 ≤ raw.length)
    ∧ (∀ digitCount, (parse3PhaseHPIRDA raw digitCount).2.isValid = true ↔ 71 ≤ raw.length)
    ∧ ((parse3PhaseIR raw).2.isValid = true ↔ 43 ≤ raw.length)
    ∧ (raw.length < 120 → parse1PhaseIRDA raw = (false, ParsedMeterData.default))
    ∧ (raw.length < 79 → parse3PhaseIRDA raw = (false, ParsedMeterData.default))
    ∧ (∀ digitCount, raw.length < 71 →
        parse3PhaseHPIRDA raw digitCount = (false, ParsedMeterData.default))
    ∧ (raw.length < 43 → parse3PhaseIR raw = (false, ParsedMeterData.default)) := by
  refine ⟨?_, ?_, ?_, ?_, ?_, ?_, ?_, ?_⟩
  · by_cases hl : 120 ≤ raw.length
    · simp [parse1PhaseIRDA, validate_true hl, hl]
    · simp [parse1PhaseIRDA, validate_false (by omega : raw.length < 120), hl, ParsedMeterData.default]
  · by_cases hl : 79 ≤ raw.length
    · simp [parse3PhaseIRDA, validate_true hl, hl]
    · simp [parse3PhaseIRDA, validate_false (by omega : raw.length < 79), hl, ParsedMeterData.default]
  · intro digitCount
    by_cases hl : 71 ≤ raw.length
    · simp [parse3PhaseHPIRDA, validate_true hl, hl]
    · simp [parse3PhaseHPIRDA, validate_false (by omega : raw.length < 71), hl, ParsedMeterData.default]
  · by_cases hl : 43 ≤ raw.length
    · simp [parse3PhaseIR, validate_true hl, hl]
    · simp [parse3PhaseIR, validate_false (by omega : raw.length < 43), hl, ParsedMeterData.default]
  · intro hl
    simp [parse1PhaseIRDA, validate_false hl]
  · intro hl
    simp [parse3PhaseIRDA, validate_false hl]
  · intro digitCount hl
    simp [parse3PhaseHPIRDA, validate_false hl]
  · intro hl
    simp [parse3PhaseIR, validate_false hl]

/-- C1 witness: the gates evaluated at all-zero captures of boundary
lengths. -/
theorem decode_valid_iff_min_length_witness :
    (parse3PhaseIRDA (List.replicate 79 0)).2.isValid = true
    ∧ parse1PhaseIRDA (List.replicate 119 0) = (false, ParsedMeterData.default)
    ∧ parse3PhaseIRDA (List.replicate 78 0) = (false, ParsedMeterData.default)
    ∧ parse3PhaseHPIRDA (List.replicate 70 0) 8 = (false, ParsedMeterData.default)
    ∧ parse3PhaseIR (List.replicate 42 0) = (false, ParsedMeterData.default) :=
  ⟨(decode_valid_iff_min_length _).2.1.mpr (by decide),
   (decode_valid_iff_min_length _).2.2.2.2.1 (by decide),
   (decode_valid_iff_min_length _).2.2.2.2.2.1 (by decide),
   (decode_valid_iff_min_length _).2.2.2.2.2.2.1 8 (by decide),
   (decode_valid_iff_min_length _).2.2.2.2.2.2.2 (by decide)⟩

/-! ### Claim C9: the parsing interface has no solar case -/

/-- C9: the main parsing interface returns false for either solar type
on every capture — its dispatch switch has no solar case — and reports
the unsupported-type error whenever the capture itself passes the input
gate (as any capture produced by a successful solar read does), so a
solar read requested in parsed form never yields a parsed record. -/
theorem parseAndPrint_solar_unsupported (d : MeterDataM) :
    (parseAndPrint d MeterType.IRDA_3PH_SOLAR_PARSED).1 = false
    ∧ (parseAndPrint d MeterType.IRDA_3PH_SOLAR_RAW).1 = false
    ∧ (d.isValid = true → d.rawData ≠ [] →
        (parseAndPrint d MeterType.IRDA_3PH_SOLAR_PARSED).2
          = some ParseErrorKind.unsupportedType) := by
  rcases d with ⟨raw, v⟩
  cases v <;> rcases raw with _ | ⟨b, rest⟩ <;> simp [parseAndPrint]

/-- C9 witness: a valid 79-byte capture still dispatches to the
unsupported-type error under the solar-parsed type. -/
theorem parseAndPrint_solar_unsupported_witness :
    (parseAndPrint ⟨List.replicate 79 0, true⟩ MeterType.IRDA_3PH_SOLAR_PARSED).2
      = some ParseErrorKind.unsupportedType :=
  (parseAndPrint_solar_unsupported _).2.2 rfl (by decide)

end MeterBLE
